import Mathlib

/-!
# Verification of the kind-beacon audit orchestrator core

Shallow embedding of the audit task orchestrator of kind-beacon:
the worker-based executor boundary (`runLighthouseInWorker`), the
p-retry retry loop (`pRetry`), the per-task audit driver
(`runLighthouseAudit`), the batch orchestrator (`orchestrateAudits`),
URL validation (`validateUrls`) and configuration merging/validation
(`createConfig` / `validateConfig`), translated from
`src/services/lighthouse-runner.js`, `src/services/audit-orchestrator.js`,
`src/models/config.js` and `src/models/audit.js`.

JavaScript numbers used by the configuration are modelled as `Int`
(all comparisons performed by the code are order comparisons and
equality, faithful on the integer inputs the CLI produces); JS
absent-vs-present option keys are modelled with `Option`; promise
rejections are modelled with `Except`.
-/

namespace KindBeacon

/-- JS `x || d` for an optional numeric option: `undefined`/absent and
the falsy number `0` both yield the default `d`. Models
`options.concurrency || 3` and `options.timeout || 60`. -/
def jsOr (x : Option Int) (d : Int) : Int :=
  match x with
  | none => d
  | some n => if n = 0 then d else n

/-- The settling event of one worker-thread attempt, as observed by
`runLighthouseInWorker` (lighthouse-runner.js lines 33–95): a success
message, a failure message carrying an error code, a worker `error`
event, a nonzero worker exit, or the hard per-attempt timeout firing.
(A zero exit code without a prior message never settles the promise
and so cannot be the decisive event.) -/
inductive WorkerOutcome
  | msgSuccess
  | msgFailure (code : String) (msg : String)
  | workerError (msg : String)
  | workerExitNonzero (code : Int)
  | forcedTimeout
deriving DecidableEq, Repr

/-- The two rejection shapes produced by `runLighthouseInWorker`: a
plain `Error` with a `code` property (retried by p-retry) or a p-retry
`AbortError` (never retried). -/
inductive RejectKind
  | plain (code : String) (msg : String)
  | abort (msg : String)
deriving DecidableEq, Repr

/-- The retryable error-code list of lighthouse-runner.js lines 61–68. -/
def networkErrorCodes : List String :=
  ["ECONNREFUSED", "ENOTFOUND", "ETIMEDOUT", "ECONNRESET", "ENETUNREACH",
   "PROTOCOL_TIMEOUT"]

/-- `runLighthouseInWorker` (lighthouse-runner.js lines 33–95), as a
function of the attempt's decisive worker event: resolves on a success
message; on a failure message rejects a plain error when the code is a
network error code and an `AbortError` otherwise; worker `error`
events, nonzero exits and the forced timeout all reject `AbortError`.
`timeout` is the optional `options.timeout` (seconds). -/
def runLighthouseInWorker (timeout : Option Int) (o : WorkerOutcome) :
    Except RejectKind Unit :=
  match o with
  | .msgSuccess => .ok ()
  | .msgFailure code msg =>
      if code ∈ networkErrorCodes then
        .error (.plain code msg)
      else
        .error (.abort msg)
  | .workerError msg => .error (.abort ("Worker error: " ++ msg))
  | .workerExitNonzero code =>
      .error (.abort ("Worker exited with code " ++ toString code))
  | .forcedTimeout =>
      .error (.abort ("Worker timeout after " ++ toString (jsOr timeout 60) ++ "s"))

/-- Result of the p-retry loop. `ok n`: the `n`-th attempt resolved.
`errPlain code msg n`: the retry budget was exhausted and p-retry
rejected the last plain error, decorated with `attemptNumber = n`.
`errAbort msg n`: attempt `n` rejected an `AbortError`; p-retry
rejects the abort's `originalError`, a fresh `Error(msg)` carrying no
`attemptNumber` and no `code` property. -/
inductive PRetryResult
  | ok (attemptsMade : Nat)
  | errPlain (code : String) (msg : String) (attemptNumber : Nat)
  | errAbort (msg : String) (attemptsMade : Nat)
deriving DecidableEq, Repr

/-- Number of executions the retry loop actually performed. -/
def PRetryResult.attemptsMade : PRetryResult → Nat
  | .ok n => n
  | .errPlain _ _ n => n
  | .errAbort _ n => n

/-- The p-retry loop (`pRetry(fn, { retries })`, used at
lighthouse-runner.js lines 114–126): attempt `n` runs; a resolution
ends the loop; an `AbortError` ends it at once; a plain error is
retried while retries remain and otherwise rejected decorated with the
final attempt number. `attempt k` is the outcome of the `k`-th
invocation of the wrapped function. -/
def pRetry (retries : Nat) (n : Nat) (attempt : Nat → Except RejectKind Unit) :
    PRetryResult :=
  match attempt n with
  | .ok () => .ok n
  | .error (.abort m) => .errAbort m n
  | .error (.plain c m) =>
      match retries with
      | 0 => .errPlain c m n
      | r + 1 => pRetry r (n + 1) attempt

/-- The per-attempt executor of `runLighthouseAudit`: attempt `k`
invokes `runLighthouseInWorker` and the environment decides that
attempt's decisive worker event `env k`. -/
def auditAttempts (timeout : Option Int) (env : Nat → WorkerOutcome)
    (k : Nat) : Except RejectKind Unit :=
  runLighthouseInWorker timeout (env k)

/-- What `runLighthouseAudit` returns to the orchestrator
(lighthouse-runner.js lines 150–159 and 195–204), plus the error log
entries produced while settling the reporting/storage sink promises. -/
structure AuditResult where
  success : Bool
  retryAttempt : Nat
  errorMsg : Option String
  errorCode : Option String
  log : List String
deriving DecidableEq, Repr

/-- `Promise.allSettled` over a sink write wrapped in
`.catch(err => logError(url, tag + err.message))`
(lighthouse-runner.js lines 143–148 and 186–191): a failure is turned
into a log entry and never propagates. -/
def settleLogged (tag : String) (sink : Except String Unit) : List String :=
  match sink with
  | .ok () => []
  | .error e => [tag ++ e]

/-- The checks of `validateAudit` (audit.js) that can fail when it is
reached from `createFailedAudit` inside `runLighthouseAudit`'s catch
block on an upstream-validated URL with a mobile/desktop device: the
retry-attempt check (`retryAttempt must be 0 or 1`, audit.js lines
134–137) and the error-required check (audit.js lines 139–142),
checked in source order. The remaining checks (requestedUrl/timestamp/
domain/lighthouseVersion/deviceMode presence and formats, duration,
status) always pass there: the catch path supplies a freshly generated
ISO timestamp, a nonnegative measured duration, a status in
`{'failed','timeout'}`, the configured device mode and a fallback
lighthouse version, and the requested URL was accepted by
`validateUrls` upstream. -/
def failedAuditCheck (errMsg : String) (retryAttempt : Nat) :
    Except String Unit :=
  if ¬ (retryAttempt = 0 ∨ retryAttempt = 1) then
    .error "retryAttempt must be 0 or 1"
  else if errMsg = "" then
    .error "error is required when status is not success"
  else
    .ok ()

/-- `runLighthouseAudit` (lighthouse-runner.js lines 107–206): runs the
worker under `pRetry` with `retries := 1`.

On resolution it returns a success result whose `retryAttempt` is
`result.retryAttempt || 0 = 0` (the worker message carries no such
field); building the success audit object is assumed not to throw (an
engine-produced result yields a `validateAudit`-passing audit).

On rejection the catch block first builds a failed audit object via
`createFailedAudit(url, error.message, …, error.attemptNumber || 1, …)`,
whose `validateAudit` call throws out of `runLighthouseAudit` when
`error.attemptNumber` is 2 (retry budget exhausted on a plain error) —
modelled by `failedAuditCheck`; only if that passes does it settle the
sink writes and return a `success: false` result with
`retryAttempt = error.attemptNumber || 1` and
`errorCode = error.code || 'UNKNOWN_ERROR'` (a p-retry `AbortError`
rejects its undecorated `originalError`, hence attempt number 1 and no
code there).

The two sink writes (report and data persistence) are parameters
`sinkReport`/`sinkData`; their failures are settled into log entries
only. -/
def runLighthouseAudit (timeout : Option Int) (env : Nat → WorkerOutcome)
    (sinkReport sinkData : Except String Unit) : Except String AuditResult :=
  match pRetry 1 1 (auditAttempts timeout env) with
  | .ok _ =>
      .ok { success := true, retryAttempt := 0, errorMsg := none, errorCode := none
            log := settleLogged "Failed to save report: " sinkReport ++
                   settleLogged "Failed to save data: " sinkData }
  | .errPlain code msg n =>
      match failedAuditCheck msg n with
      | .error e => .error e
      | .ok () =>
          .ok { success := false, retryAttempt := n, errorMsg := some msg
                errorCode := some code
                log := settleLogged "Failed to save error report: " sinkReport ++
                       settleLogged "Failed to save error data: " sinkData }
  | .errAbort msg _ =>
      match failedAuditCheck msg 1 with
      | .error e => .error e
      | .ok () =>
          .ok { success := false, retryAttempt := 1, errorMsg := some msg
                errorCode := some "UNKNOWN_ERROR"
                log := settleLogged "Failed to save error report: " sinkReport ++
                       settleLogged "Failed to save error data: " sinkData }

/-- The orchestrator's accumulated results (audit-orchestrator.js lines
287–297): the `successful`/`failed` arrays and the summary counters,
which the code increments separately from the pushes. -/
structure OrchResults where
  successfulEntries : List (String × AuditResult)
  failedEntries : List (String × String)
  nSuccessful : Nat
  nFailed : Nat
deriving DecidableEq, Repr

/-- The empty results record the orchestrator starts from. -/
def OrchResults.empty : OrchResults :=
  { successfulEntries := [], failedEntries := [], nSuccessful := 0, nFailed := 0 }

/-- One iteration of the orchestrator's per-task body
(audit-orchestrator.js lines 312–357): `await` the audit function; a
resolved value is pushed onto `successful` and `summary.successful` is
incremented; a rejection is caught and pushed onto `failed` with
`summary.failed` incremented. -/
def orchStep (auditFn : String → Except String AuditResult)
    (acc : OrchResults) (url : String) : OrchResults :=
  match auditFn url with
  | .ok r =>
      { acc with successfulEntries := acc.successfulEntries ++ [(url, r)]
                 nSuccessful := acc.nSuccessful + 1 }
  | .error e =>
      { acc with failedEntries := acc.failedEntries ++ [(url, e)]
                 nFailed := acc.nFailed + 1 }

/-- `orchestrateAudits` (audit-orchestrator.js lines 270–367):
validates `options.concurrency || 3` against [1,10] before anything
else, then runs every task exactly once, each task ending in exactly
one of the two buckets. The concurrency limit bounds how many task
bodies overlap but each task's single bucket update is atomic on the
event loop, so the final tallies are those of the sequential fold;
the limiter's admission discipline itself is modelled separately by
`SchedStep`/`SchedReachable` below. -/
def orchestrateAudits (urls : List String)
    (auditFn : String → Except String AuditResult)
    (concurrencyOpt : Option Int) : Except String OrchResults :=
  let concurrency := jsOr concurrencyOpt 3
  if concurrency < 1 ∨ concurrency > 10 then
    .error ("Concurrency must be between 1 and 10 (got: " ++
            toString concurrency ++ ")")
  else
    .ok (urls.foldl (orchStep auditFn) OrchResults.empty)

/-! ## URL validation (audit-orchestrator.js lines 380–416) -/

/-- One element of the array handed to `validateUrls`. JavaScript
allows non-string entries; every non-string (and every falsy value) is
rejected by the first guard `!url || typeof url !== 'string'`, so all
non-string values are modelled by one constructor. The invalid-entry
display value for truthy non-strings is not modelled (the claims
concern membership and counts). -/
inductive UrlEntry
  | str (s : String)
  | nonString
deriving DecidableEq, Repr

/-- An entry of the `invalid` array: the (string) url and the reason. -/
structure InvalidUrl where
  url : String
  reason : String
deriving DecidableEq, Repr

/-- `validateUrls` (audit-orchestrator.js lines 380–416): partitions
the input into `valid` urls and `invalid` entries. `urlParses` is the
external WHATWG `new URL(url)` oracle: `true` when the constructor
accepts the string. -/
def validateUrls (urlParses : String → Bool) :
    List UrlEntry → List String × List InvalidUrl
  | [] => ([], [])
  | e :: rest =>
      match e with
      | .nonString =>
          ((validateUrls urlParses rest).1,
           ⟨"(empty)", "Empty or invalid URL"⟩ :: (validateUrls urlParses rest).2)
      | .str s =>
          if s = "" then
            ((validateUrls urlParses rest).1,
             ⟨"(empty)", "Empty or invalid URL"⟩ :: (validateUrls urlParses rest).2)
          else if ¬ (s.startsWith "http://" ∨ s.startsWith "https://") then
            ((validateUrls urlParses rest).1,
             ⟨s, "URL must start with http:// or https://"⟩ ::
               (validateUrls urlParses rest).2)
          else if urlParses s then
            (s :: (validateUrls urlParses rest).1, (validateUrls urlParses rest).2)
          else
            ((validateUrls urlParses rest).1,
             ⟨s, "Invalid URL format"⟩ :: (validateUrls urlParses rest).2)

/-- Characterisation of the `valid` branch of `validateUrls`: a
non-empty string starting with `http://` or `https://` that the URL
constructor accepts. -/
def isAcceptedUrl (urlParses : String → Bool) : UrlEntry → Bool
  | .str s =>
      (s ≠ "" : Bool) && (s.startsWith "http://" || s.startsWith "https://")
        && urlParses s
  | .nonString => false

/-- The string carried by a `UrlEntry`, when it is one. -/
def UrlEntry.toStr : UrlEntry → Option String
  | .str s => some s
  | .nonString => none

/-! ## Configuration (config.js, `src/unnamed` part: Config Model) -/

/-- A JavaScript value as far as `validateConfig` discriminates them:
a number, a string, or anything else (`typeof` neither `'number'` nor
`'string'`). Numbers are modelled as `Int`: the code only compares
them with `<`, `>` and set membership. -/
inductive JsVal
  | num (n : Int)
  | str (s : String)
  | other
deriving DecidableEq, Repr

/-- A fully merged configuration object: all five keys present. -/
structure JsConfig where
  concurrency : JsVal
  timeout : JsVal
  device : JsVal
  dataDir : JsVal
  reportsDir : JsVal
deriving DecidableEq, Repr

/-- A partial configuration (CLI options or a loaded config file):
each key either absent or bound to a value. -/
structure PartialConfig where
  concurrency : Option JsVal := none
  timeout : Option JsVal := none
  device : Option JsVal := none
  dataDir : Option JsVal := none
  reportsDir : Option JsVal := none
deriving DecidableEq, Repr

/-- The empty partial configuration (`{}`). -/
def PartialConfig.empty : PartialConfig := {}

/-- `DEFAULT_CONFIG` (config.js): concurrency 3, timeout 60, device
`'mobile'`, dataDir `'./data'`, reportsDir `'./reports'`. -/
def DEFAULT_CONFIG : JsConfig :=
  { concurrency := .num 3, timeout := .num 60, device := .str "mobile"
    dataDir := .str "./data", reportsDir := .str "./reports" }

/-- One key of the object spread
`{ ...DEFAULT_CONFIG, ...fileConfig, ...cliOptions }`: the CLI value
when present, else the file value when present, else the default. -/
def mergeField (cli file : Option JsVal) (d : JsVal) : JsVal :=
  cli.getD (file.getD d)

/-- The spread `{ ...DEFAULT_CONFIG, ...(fileConfig || {}), ...cliOptions }`
of `createConfig` (config.js), key by key. -/
def mergeConfig (cli file : PartialConfig) : JsConfig :=
  { concurrency := mergeField cli.concurrency file.concurrency DEFAULT_CONFIG.concurrency
    timeout := mergeField cli.timeout file.timeout DEFAULT_CONFIG.timeout
    device := mergeField cli.device file.device DEFAULT_CONFIG.device
    dataDir := mergeField cli.dataDir file.dataDir DEFAULT_CONFIG.dataDir
    reportsDir := mergeField cli.reportsDir file.reportsDir DEFAULT_CONFIG.reportsDir }

/-- `validateConfig` (config.js): throws on the first violated check,
in source order — concurrency a number in [1,10], timeout a positive
number, device one of `'mobile'`/`'desktop'`, dataDir and reportsDir
non-empty strings. -/
def validateConfig (c : JsConfig) : Except String Unit :=
  match c.concurrency with
  | .num n =>
      if n < 1 ∨ n > 10 then .error "concurrency must be between 1 and 10"
      else
        match c.timeout with
        | .num t =>
            if t ≤ 0 then .error "timeout must be positive"
            else
              match c.device with
              | .str d =>
                  if d = "mobile" ∨ d = "desktop" then
                    match c.dataDir with
                    | .str dd =>
                        if dd = "" then .error "dataDir must be a non-empty string"
                        else
                          match c.reportsDir with
                          | .str rd =>
                              if rd = "" then
                                .error "reportsDir must be a non-empty string"
                              else .ok ()
                          | _ => .error "reportsDir must be a non-empty string"
                    | _ => .error "dataDir must be a non-empty string"
                  else .error "device must be 'mobile' or 'desktop'"
              | _ => .error "device must be 'mobile' or 'desktop'"
        | _ => .error "timeout must be a number"
  | _ => .error "concurrency must be a number"

/-- `createConfig` (config.js): merges with precedence CLI > config
file > defaults (a missing/failed config file load contributes `{}`),
validates the merged object and throws the validation error if any. -/
def createConfig (cliOptions : PartialConfig) (fileConfig : Option PartialConfig) :
    Except String JsConfig :=
  match validateConfig (mergeConfig cliOptions (fileConfig.getD PartialConfig.empty)) with
  | .ok () => .ok (mergeConfig cliOptions (fileConfig.getD PartialConfig.empty))
  | .error e => .error e

/-- Spec-side characterisation of a configuration that passes every
check of `validateConfig`. -/
def configOk (c : JsConfig) : Bool :=
  (match c.concurrency with | .num n => decide (1 ≤ n ∧ n ≤ 10) | _ => false) &&
  (match c.timeout with | .num t => decide (0 < t) | _ => false) &&
  (match c.device with | .str d => d == "mobile" || d == "desktop" | _ => false) &&
  (match c.dataDir with | .str s => s ≠ "" | _ => false) &&
  (match c.reportsDir with | .str s => s ≠ "" | _ => false)

/-! ## The concurrency limiter's admission discipline

Modelled from the spec: the limiter itself is the external `p-limit`
dependency (not part of this repository's sources), used by
`orchestrateAudits` at audit-orchestrator.js lines 307–361. Per spec
§4.1/§5 it admits a queued task only while fewer than `maxConcurrent`
task runners are active, and frees a slot when a task completes. -/

/-- A scheduler state: how many tasks are still queued, how many are
currently attempting, and how many have completed. -/
structure SchedState where
  pending : Nat
  attempting : Nat
  completed : Nat
deriving DecidableEq, Repr

/-- One scheduler transition under limit `n`: admit a queued task when
a slot is free, or complete an active task. -/
inductive SchedStep (n : Nat) : SchedState → SchedState → Prop
  | enter (s : SchedState) (hp : s.pending ≠ 0) (ha : s.attempting < n) :
      SchedStep n s ⟨s.pending - 1, s.attempting + 1, s.completed⟩
  | finish (s : SchedState) (ha : s.attempting ≠ 0) :
      SchedStep n s ⟨s.pending, s.attempting - 1, s.completed + 1⟩

/-- States reachable from the batch-start state (`total` tasks queued,
none active, none completed) under limit `n`. -/
inductive SchedReachable (n total : Nat) : SchedState → Prop
  | init : SchedReachable n total ⟨total, 0, 0⟩
  | step {s t : SchedState} : SchedReachable n total s → SchedStep n s t →
      SchedReachable n total t

/-! ## Classification helpers and concrete scenario inputs -/

/-- Whether a worker rejection is the retryable (plain-error) kind:
p-retry retries exactly these; an `AbortError` is final. -/
def isRetryableReject : Except RejectKind Unit → Bool
  | .error (.plain _ _) => true
  | _ => false

/-- Number of log entries a sink outcome settles into (0 or 1). -/
def sinkFailCount : Except String Unit → Nat
  | .ok _ => 0
  | .error _ => 1

/-- The sink-independent part of an audit result. -/
def AuditResult.core (r : AuditResult) : Bool × Nat × Option String × Option String :=
  (r.success, r.retryAttempt, r.errorMsg, r.errorCode)

/-- An executor environment whose every attempt fails with a
connection-refused network error. -/
def connRefusedEnv : Nat → WorkerOutcome :=
  fun _ => .msgFailure "ECONNREFUSED" "connect ECONNREFUSED 93.184.216.34:443"

/-- An executor environment whose every attempt exceeds the hard
per-attempt deadline. -/
def timeoutEnv : Nat → WorkerOutcome := fun _ => .forcedTimeout

/-- An executor environment whose every attempt succeeds. -/
def successEnv : Nat → WorkerOutcome := fun _ => .msgSuccess

/-- An audit function whose audits always succeed with healthy sinks. -/
def okAuditFn : String → Except String AuditResult :=
  fun _ => runLighthouseAudit none successEnv (.ok ()) (.ok ())

/-- The audit result of a first-attempt success with healthy sinks. -/
def okAuditValue : AuditResult :=
  { success := true, retryAttempt := 0, errorMsg := none, errorCode := none
    log := [] }

/-- The orchestrator results of a one-URL all-success batch. -/
def c2Result : OrchResults :=
  { successfulEntries := [("https://ok.example", okAuditValue)]
    failedEntries := [], nSuccessful := 1, nFailed := 0 }

/-- The audit result of a first-attempt success whose report write
failed. -/
def okAuditValueLoggedSink : AuditResult :=
  { success := true, retryAttempt := 0, errorMsg := none, errorCode := none
    log := ["Failed to save report: disk full"] }

/-- CLI options supplying only a concurrency of 5. -/
def c10Cli : PartialConfig := { concurrency := some (.num 5) }

/-- A config file supplying a concurrency of 9 and a timeout of 30. -/
def c10File : PartialConfig :=
  { concurrency := some (.num 9), timeout := some (.num 30) }

/-! ## Helper lemmas -/

/-- The retry loop executes between `n` and `n + retries` attempts when
started at attempt number `n`. -/
theorem pRetry_attemptsMade_bounds (retries : Nat) :
    ∀ (n : Nat) (f : Nat → Except RejectKind Unit),
      n ≤ (pRetry retries n f).attemptsMade ∧
        (pRetry retries n f).attemptsMade ≤ n + retries := by
  induction retries with
  | zero =>
      intro n f
      unfold pRetry
      split <;> simp [PRetryResult.attemptsMade]
  | succ r ih =>
      intro n f
      unfold pRetry
      split
      · simp [PRetryResult.attemptsMade]
      · simp [PRetryResult.attemptsMade]
      · have h := ih (n + 1) f
        show n ≤ (pRetry r (n + 1) f).attemptsMade ∧
          (pRetry r (n + 1) f).attemptsMade ≤ n + (r + 1)
        omega

/-- Each processed URL adds exactly one to the combined tally. -/
theorem orch_counts_foldl (auditFn : String → Except String AuditResult) :
    ∀ (urls : List String) (acc : OrchResults),
      (urls.foldl (orchStep auditFn) acc).nSuccessful +
          (urls.foldl (orchStep auditFn) acc).nFailed
        = acc.nSuccessful + acc.nFailed + urls.length := by
  intro urls
  induction urls with
  | nil => intro acc; simp
  | cons url rest ih =>
      intro acc
      rw [List.foldl_cons, ih (orchStep auditFn acc url)]
      cases h : auditFn url <;> simp [orchStep, h] <;> omega

/-- The counters stay in lock-step with the pushed result arrays. -/
theorem orch_lens_foldl (auditFn : String → Except String AuditResult) :
    ∀ (urls : List String) (acc : OrchResults),
      acc.nSuccessful = acc.successfulEntries.length →
      acc.nFailed = acc.failedEntries.length →
      (urls.foldl (orchStep auditFn) acc).nSuccessful =
          (urls.foldl (orchStep auditFn) acc).successfulEntries.length ∧
        (urls.foldl (orchStep auditFn) acc).nFailed =
          (urls.foldl (orchStep auditFn) acc).failedEntries.length := by
  intro urls
  induction urls with
  | nil => intro acc h1 h2; simpa using ⟨h1, h2⟩
  | cons url rest ih =>
      intro acc h1 h2
      rw [List.foldl_cons]
      cases h : auditFn url <;>
        exact ih _ (by simp [orchStep, h, h1]) (by simp [orchStep, h, h2])

/-! ## Claim theorems -/

/-- C2: for every batch of submitted URLs that yields a summary, the
counters satisfy `succeeded + failed = number of submitted tasks`, and
each counter equals the length of its result bucket: every task is
counted exactly once, never dropped and never double-counted. -/
theorem spec_C2 (urls : List String)
    (auditFn : String → Except String AuditResult) (copt : Option Int)
    (r : OrchResults) (h : orchestrateAudits urls auditFn copt = .ok r) :
    r.nSuccessful + r.nFailed = urls.length ∧
    r.successfulEntries.length = r.nSuccessful ∧
    r.failedEntries.length = r.nFailed := by
  unfold orchestrateAudits at h
  by_cases hc : jsOr copt 3 < 1 ∨ jsOr copt 3 > 10
  · simp [hc] at h
  · simp [hc] at h
    subst h
    have hcount := orch_counts_foldl auditFn urls OrchResults.empty
    have hlens := orch_lens_foldl auditFn urls OrchResults.empty rfl rfl
    simp [OrchResults.empty] at hcount
    exact ⟨hcount, hlens.1.symm, hlens.2.symm⟩

/-- Witness for C2 at a concrete one-URL all-success batch. -/
theorem spec_C2_witness :
    c2Result.nSuccessful + c2Result.nFailed = 1 ∧
    c2Result.successfulEntries.length = c2Result.nSuccessful ∧
    c2Result.failedEntries.length = c2Result.nFailed :=
  spec_C2 ["https://ok.example"] okAuditFn none c2Result (by rfl)

/-- C4: no matter how every attempt of a task fails, the retry loop
executes 1 or 2 attempts, never more: the retry budget of one retry is
never exceeded. -/
theorem spec_C4 (timeout : Option Int) (env : Nat → WorkerOutcome) :
    (pRetry 1 1 (auditAttempts timeout env)).attemptsMade = 1 ∨
      (pRetry 1 1 (auditAttempts timeout env)).attemptsMade = 2 := by
  have h := pRetry_attemptsMade_bounds 1 1 (auditAttempts timeout env)
  omega

/-- C7: in every state reachable by the limiter's admission discipline
from the batch-start state, at most `maxConcurrent` tasks are in the
`Attempting` state. -/
theorem spec_C7 (n total : Nat) (s : SchedState)
    (h : SchedReachable n total s) : s.attempting ≤ n := by
  induction h with
  | init => exact Nat.zero_le n
  | @step u t hr hs ih =>
      cases hs with
      | enter hp ha => exact ha
      | finish ha =>
          show u.attempting - 1 ≤ n
          omega

/-- Witness for C7 at a concrete reachable state of a 5-task batch
with limit 3. -/
theorem spec_C7_witness : (SchedState.mk 4 1 0).attempting ≤ 3 :=
  spec_C7 3 5 ⟨4, 1, 0⟩
    (SchedReachable.step SchedReachable.init
      (SchedStep.enter ⟨5, 0, 0⟩ (by decide) (by decide)))

/-- C5: an attempt failure is rejected as retryable (plain error,
retried by p-retry) if and only if it is a worker failure message
whose code is one of the network error codes (connection refused, DNS
failure, timeouts, connection reset, host unreachable); all other
failures — including malformed-input and engine failures — reject an
`AbortError` and cause no second attempt, while a network-coded first
failure always leads to a second attempt. -/
theorem spec_C5 :
    (∀ (t : Option Int) (o : WorkerOutcome),
        isRetryableReject (runLighthouseInWorker t o) = true ↔
          ∃ c m, o = .msgFailure c m ∧ c ∈ networkErrorCodes) ∧
    (∀ (t : Option Int) (env : Nat → WorkerOutcome) (c m : String),
        env 1 = .msgFailure c m →
          ((pRetry 1 1 (auditAttempts t env)).attemptsMade = 2 ↔
            c ∈ networkErrorCodes)) := by
  constructor
  · intro t o
    cases o with
    | msgFailure c m =>
        by_cases hc : c ∈ networkErrorCodes <;>
          simp [runLighthouseInWorker, isRetryableReject, hc]
    | msgSuccess => simp [runLighthouseInWorker, isRetryableReject]
    | workerError m => simp [runLighthouseInWorker, isRetryableReject]
    | workerExitNonzero code => simp [runLighthouseInWorker, isRetryableReject]
    | forcedTimeout => simp [runLighthouseInWorker, isRetryableReject]
  · intro t env c m h
    by_cases hc : c ∈ networkErrorCodes
    · have haud : auditAttempts t env 1 = .error (.plain c m) := by
        simp [auditAttempts, h, runLighthouseInWorker, hc]
      have hb := pRetry_attemptsMade_bounds 0 (1 + 1) (auditAttempts t env)
      unfold pRetry
      rw [haud]
      simp only [hc, iff_true]
      show (pRetry 0 (1 + 1) (auditAttempts t env)).attemptsMade = 2
      omega
    · unfold pRetry
      simp [auditAttempts, h, runLighthouseInWorker, hc,
        PRetryResult.attemptsMade]

/-- Witness for C5: a connection-refused failure is classified
retryable and leads to exactly two attempts. -/
theorem spec_C5_witness :
    isRetryableReject (runLighthouseInWorker (some 60)
        (.msgFailure "ECONNREFUSED" "connect ECONNREFUSED 93.184.216.34:443"))
      = true ∧
    (pRetry 1 1 (auditAttempts (some 60) connRefusedEnv)).attemptsMade = 2 :=
  ⟨(spec_C5.1 (some 60) _).mpr
      ⟨"ECONNREFUSED", "connect ECONNREFUSED 93.184.216.34:443", rfl, by decide⟩,
   (spec_C5.2 (some 60) connRefusedEnv "ECONNREFUSED"
      "connect ECONNREFUSED 93.184.216.34:443" rfl).mpr (by decide)⟩

/-- C3 counterexample: an attempt that exceeds its hard deadline
rejects an `AbortError`, which is NOT classified retryable, and a task
whose first attempt times out gets no second attempt — contradicting
the claim that a forced timeout is retryable like a network failure. -/
theorem spec_C3_counterexample :
    isRetryableReject (runLighthouseInWorker (some 60) .forcedTimeout) = false ∧
    (pRetry 1 1 (auditAttempts (some 60) timeoutEnv)).attemptsMade = 1 := by
  constructor <;> rfl

/-- C3 amended: a task whose first attempt exceeds its hard deadline
is forcibly terminated and the timeout rejection is classified
Terminal (an `AbortError`): exactly one attempt is made, and the task
resolves to a non-thrown failure result with attempt count 1. -/
theorem spec_C3_amended (t : Option Int) (env : Nat → WorkerOutcome)
    (s1 s2 : Except String Unit) (h : env 1 = .forcedTimeout) :
    isRetryableReject (runLighthouseInWorker t (env 1)) = false ∧
    (pRetry 1 1 (auditAttempts t env)).attemptsMade = 1 ∧
    runLighthouseAudit t env s1 s2 =
      .ok { success := false, retryAttempt := 1
            errorMsg :=
              some ("Worker timeout after " ++ toString (jsOr t 60) ++ "s")
            errorCode := some "UNKNOWN_ERROR"
            log := settleLogged "Failed to save error report: " s1 ++
                   settleLogged "Failed to save error data: " s2 } := by
  have hmsg : ("Worker timeout after " ++ toString (jsOr t 60) ++ "s") ≠ "" := by
    intro he
    have h2 := congrArg String.length he
    simp [String.length_append] at h2
    exact absurd h2.2 (by decide)
  refine ⟨by rw [h]; rfl, ?_, ?_⟩
  · unfold pRetry
    simp [auditAttempts, h, runLighthouseInWorker, PRetryResult.attemptsMade]
  · unfold runLighthouseAudit pRetry
    simp [auditAttempts, h, runLighthouseInWorker, failedAuditCheck, hmsg]

/-- Witness for C3 amended at the always-timing-out environment. -/
theorem spec_C3_amended_witness :
    isRetryableReject (runLighthouseInWorker (some 60) (timeoutEnv 1)) = false ∧
    (pRetry 1 1 (auditAttempts (some 60) timeoutEnv)).attemptsMade = 1 ∧
    runLighthouseAudit (some 60) timeoutEnv (.ok ()) (.ok ()) =
      .ok { success := false, retryAttempt := 1
            errorMsg :=
              some ("Worker timeout after " ++ toString (jsOr (some 60) 60) ++ "s")
            errorCode := some "UNKNOWN_ERROR"
            log := settleLogged "Failed to save error report: " (.ok ()) ++
                   settleLogged "Failed to save error data: " (.ok ()) } :=
  spec_C3_amended (some 60) timeoutEnv (.ok ()) (.ok ()) rfl

/-- C6 counterexample: a concurrency of 0 — outside [1,10] — does not
throw: `options.concurrency || 3` treats the falsy 0 as unset, so the
batch runs with the default concurrency 3. -/
theorem spec_C6_counterexample :
    orchestrateAudits ["https://example.com"] okAuditFn (some 0) =
      .ok { successfulEntries := [("https://example.com", okAuditValue)]
            failedEntries := [], nSuccessful := 1, nFailed := 0 } := by
  rfl

/-- C6 amended: every NONZERO concurrency outside [1,10] (negative or
greater than 10) makes the batch throw a configuration error before
any task starts, independently of the audit function and URLs; a
concurrency of 0 is treated as unset and silently replaced by the
default 3. -/
theorem spec_C6_amended (n : Int) (urls : List String)
    (auditFn : String → Except String AuditResult) (hn0 : n ≠ 0)
    (h : n < 1 ∨ n > 10) :
    orchestrateAudits urls auditFn (some n) =
      .error ("Concurrency must be between 1 and 10 (got: " ++ toString n ++ ")") := by
  unfold orchestrateAudits
  simp [jsOr, hn0, h]

/-- Witness for C6 amended at concurrency 11. -/
theorem spec_C6_amended_witness :
    orchestrateAudits [] okAuditFn (some 11) =
      .error ("Concurrency must be between 1 and 10 (got: " ++
              toString (11 : Int) ++ ")") :=
  spec_C6_amended 11 [] okAuditFn (by decide) (by decide)

/-- C1: a one-URL batch whose executor fails every attempt with a
network error ends with summary `failed = 1`, `succeeded = 0` after
exactly 2 execution attempts. (The failure reaches the failed bucket
because the exhausted-retry error carries attempt number 2, which
`createFailedAudit`'s `validateAudit` rejects, making
`runLighthouseAudit` itself throw into the orchestrator's catch.) -/
theorem spec_C1 :
    orchestrateAudits ["https://example.com"]
        (fun _ => runLighthouseAudit (some 60) connRefusedEnv (.ok ()) (.ok ()))
        none =
      .ok { successfulEntries := []
            failedEntries := [("https://example.com", "retryAttempt must be 0 or 1")]
            nSuccessful := 0, nFailed := 1 } ∧
    (pRetry 1 1 (auditAttempts (some 60) connRefusedEnv)).attemptsMade = 2 := by
  constructor <;> rfl

/-- C8: a failure while persisting the report or the audit data never
changes the audit's outcome — the success flag, attempt count and
error fields are identical to a run with healthy sinks, and the
function throws in exactly the same cases — while each failing sink
write contributes exactly one log entry. -/
theorem spec_C8 (t : Option Int) (env : Nat → WorkerOutcome)
    (s1 s2 : Except String Unit) :
    (runLighthouseAudit t env s1 s2).map AuditResult.core =
      (runLighthouseAudit t env (.ok ()) (.ok ())).map AuditResult.core ∧
    (∀ r, runLighthouseAudit t env s1 s2 = .ok r →
      r.log.length = sinkFailCount s1 + sinkFailCount s2) := by
  cases hp : pRetry 1 1 (auditAttempts t env) with
  | ok n =>
      constructor
      · simp [runLighthouseAudit, hp, Except.map, AuditResult.core]
      · intro r hr
        simp only [runLighthouseAudit, hp, Except.ok.injEq] at hr
        subst hr
        cases s1 <;> cases s2 <;> simp [settleLogged, sinkFailCount]
  | errPlain code msg n =>
      cases hc : failedAuditCheck msg n with
      | error e =>
          constructor
          · simp [runLighthouseAudit, hp, hc]
          · intro r hr
            simp [runLighthouseAudit, hp, hc] at hr
      | ok u =>
          cases u
          constructor
          · simp [runLighthouseAudit, hp, hc, Except.map, AuditResult.core]
          · intro r hr
            simp only [runLighthouseAudit, hp, hc, Except.ok.injEq] at hr
            subst hr
            cases s1 <;> cases s2 <;> simp [settleLogged, sinkFailCount]
  | errAbort msg n =>
      cases hc : failedAuditCheck msg 1 with
      | error e =>
          constructor
          · simp [runLighthouseAudit, hp, hc]
          · intro r hr
            simp [runLighthouseAudit, hp, hc] at hr
      | ok u =>
          cases u
          constructor
          · simp [runLighthouseAudit, hp, hc, Except.map, AuditResult.core]
          · intro r hr
            simp only [runLighthouseAudit, hp, hc, Except.ok.injEq] at hr
            subst hr
            cases s1 <;> cases s2 <;> simp [settleLogged, sinkFailCount]

/-- Witness for C8: a failing report write on a successful audit is
logged once and leaves the audit result's core unchanged. -/
theorem spec_C8_witness :
    (runLighthouseAudit none successEnv (.error "disk full") (.ok ())).map
        AuditResult.core =
      (runLighthouseAudit none successEnv (.ok ()) (.ok ())).map
        AuditResult.core ∧
    okAuditValueLoggedSink.log.length =
      sinkFailCount (Except.error "disk full") + sinkFailCount (.ok ()) :=
  ⟨(spec_C8 none successEnv (.error "disk full") (.ok ())).1,
   (spec_C8 none successEnv (.error "disk full") (.ok ())).2
     okAuditValueLoggedSink (by rfl)⟩

/-- C9: `validateUrls` partitions its input — the two returned arrays
together have exactly the input's length (each element is placed in
exactly one of them), and the valid array consists precisely of the
input's elements that are non-empty strings starting with `http://` or
`https://` and accepted by the URL constructor, in order. -/
theorem spec_C9 (urlParses : String → Bool) (urls : List UrlEntry) :
    (validateUrls urlParses urls).1.length +
        (validateUrls urlParses urls).2.length = urls.length ∧
    (validateUrls urlParses urls).1 =
      urls.filterMap
        (fun e => if isAcceptedUrl urlParses e then e.toStr else none) := by
  induction urls with
  | nil => simp [validateUrls]
  | cons e rest ih =>
      obtain ⟨ih1, ih2⟩ := ih
      cases e with
      | nonString =>
          have hhead :
              (fun e => if isAcceptedUrl urlParses e then e.toStr else none)
                UrlEntry.nonString = none := by
            simp [isAcceptedUrl]
          constructor
          · simp only [validateUrls, List.length_cons]
            omega
          · simp only [validateUrls]
            rw [List.filterMap_cons_none]
            · exact ih2
            · exact hhead
      | str s =>
          by_cases h1 : s = ""
          · have hhead :
                (fun e => if isAcceptedUrl urlParses e then e.toStr else none)
                  (UrlEntry.str s) = none := by
              simp [isAcceptedUrl, h1]
            constructor
            · simp only [validateUrls, if_pos h1, List.length_cons]
              omega
            · simp only [validateUrls, if_pos h1]
              rw [List.filterMap_cons_none]
              · exact ih2
              · exact hhead
          · by_cases h2 : s.startsWith "http://" ∨ s.startsWith "https://"
            · have horB :
                  (s.startsWith "http://" || s.startsWith "https://") = true := by
                rcases h2 with h | h <;> simp [h]
              by_cases h3 : urlParses s
              · have hhead :
                    (fun e => if isAcceptedUrl urlParses e then e.toStr else none)
                      (UrlEntry.str s) = some s := by
                  simp [isAcceptedUrl, h1, horB, h3, UrlEntry.toStr]
                constructor
                · simp only [validateUrls, if_neg h1, if_neg (not_not_intro h2),
                    if_pos h3, List.length_cons]
                  omega
                · simp only [validateUrls, if_neg h1, if_neg (not_not_intro h2),
                    if_pos h3]
                  rw [List.filterMap_cons_some]
                  · rw [ih2]
                  · exact hhead
              · have h3' : urlParses s = false := by simpa using h3
                have hhead :
                    (fun e => if isAcceptedUrl urlParses e then e.toStr else none)
                      (UrlEntry.str s) = none := by
                  simp [isAcceptedUrl, h3']
                constructor
                · simp only [validateUrls, if_neg h1, if_neg (not_not_intro h2),
                    if_neg h3, List.length_cons]
                  omega
                · simp only [validateUrls, if_neg h1, if_neg (not_not_intro h2),
                    if_neg h3]
                  rw [List.filterMap_cons_none]
                  · exact ih2
                  · exact hhead
            · have hA : s.startsWith "http://" = false := by
                cases hx : s.startsWith "http://" with
                | false => rfl
                | true => exact absurd (Or.inl hx) h2
              have hB : s.startsWith "https://" = false := by
                cases hx : s.startsWith "https://" with
                | false => rfl
                | true => exact absurd (Or.inr hx) h2
              have hhead :
                  (fun e => if isAcceptedUrl urlParses e then e.toStr else none)
                    (UrlEntry.str s) = none := by
                simp [isAcceptedUrl, hA, hB]
              constructor
              · simp only [validateUrls, if_neg h1, if_pos h2, List.length_cons]
                omega
              · simp only [validateUrls, if_neg h1, if_pos h2]
                rw [List.filterMap_cons_none]
                · exact ih2
                · exact hhead

/-- `validateConfig` succeeds exactly on configurations whose five
fields all pass their checks. -/
theorem validateConfig_ok_iff (c : JsConfig) :
    validateConfig c = .ok () ↔ configOk c = true := by
  obtain ⟨cc, ct, cd, cdd, crd⟩ := c
  cases cc <;> cases ct <;> cases cd <;> cases cdd <;> cases crd <;>
    (simp only [validateConfig, configOk]; try split_ifs) <;>
    (simp_all; try omega)

/-- C10: `createConfig` merges with precedence CLI option > config
file > built-in default (concurrency 3, timeout 60, device mobile,
dataDir ./data, reportsDir ./reports) for every key, and the merged
result is validated: the call returns the merged configuration when
every field passes its type/range check and throws an Error otherwise. -/
theorem spec_C10 (cli : PartialConfig) (file : Option PartialConfig) :
    (mergeConfig cli (file.getD PartialConfig.empty)).concurrency =
        cli.concurrency.getD
          ((file.getD PartialConfig.empty).concurrency.getD (.num 3)) ∧
    (mergeConfig cli (file.getD PartialConfig.empty)).timeout =
        cli.timeout.getD
          ((file.getD PartialConfig.empty).timeout.getD (.num 60)) ∧
    (mergeConfig cli (file.getD PartialConfig.empty)).device =
        cli.device.getD
          ((file.getD PartialConfig.empty).device.getD (.str "mobile")) ∧
    (mergeConfig cli (file.getD PartialConfig.empty)).dataDir =
        cli.dataDir.getD
          ((file.getD PartialConfig.empty).dataDir.getD (.str "./data")) ∧
    (mergeConfig cli (file.getD PartialConfig.empty)).reportsDir =
        cli.reportsDir.getD
          ((file.getD PartialConfig.empty).reportsDir.getD (.str "./reports")) ∧
    (configOk (mergeConfig cli (file.getD PartialConfig.empty)) = true →
      createConfig cli file =
        .ok (mergeConfig cli (file.getD PartialConfig.empty))) ∧
    (configOk (mergeConfig cli (file.getD PartialConfig.empty)) = false →
      ∃ e, createConfig cli file = .error e) := by
  refine ⟨rfl, rfl, rfl, rfl, rfl, ?_, ?_⟩
  · intro hok
    have hval := (validateConfig_ok_iff
      (mergeConfig cli (file.getD PartialConfig.empty))).mpr hok
    unfold createConfig
    rw [hval]
  · intro hbad
    cases hval : validateConfig (mergeConfig cli (file.getD PartialConfig.empty)) with
    | ok u =>
        cases u
        have := (validateConfig_ok_iff
          (mergeConfig cli (file.getD PartialConfig.empty))).mp hval
        rw [this] at hbad
        cases hbad
    | error e =>
        refine ⟨e, ?_⟩
        unfold createConfig
        rw [hval]

/-- Witness for C10: CLI concurrency 5 beats the file's 9, the file's
timeout 30 beats the default 60, the remaining fields fall back to
defaults, and the validated merge succeeds. -/
theorem spec_C10_witness :
    createConfig c10Cli (some c10File) =
      .ok { concurrency := .num 5, timeout := .num 30, device := .str "mobile"
            dataDir := .str "./data", reportsDir := .str "./reports" } :=
  (spec_C10 c10Cli (some c10File)).2.2.2.2.2.1 (by decide)

end KindBeacon
